import Mathlib

/-!
Verification of the Meet-Me-Halfway core numeric routines.

This file gives a shallow embedding of the route-midpoint computation
(`getMidpoint` in `results-map.tsx`), the geometric midpoint
(`calculateMidpoint` in `app-structure.md`), and the POI scoring /
filtering / sorting pipeline (`calculateTravelTimes`, `getPoiCategory`,
`sortedAndFilteredPois` in the points-of-interest component), and proves
the testable properties stated for them.

Numbers that the JavaScript source handles as IEEE doubles are modelled
as exact reals (for the trigonometric route/midpoint code) or exact
rationals (for the POI pipeline, which only adds, subtracts, divides by
60 and compares).  Failure points of the source (a `null` route, an
out-of-bounds array index) are modelled as explicit result constructors.
-/

namespace MMH

open Real

/-- Model of JavaScript `Math.atan2 y x`: the angle of the point `(x, y)`,
in `(-pi, pi]`, with `atan2 0 0 = 0`. -/
noncomputable def atan2 (y x : ℝ) : ℝ :=
  if 0 < x then arctan (y / x)
  else if x < 0 then
    (if 0 ≤ y then arctan (y / x) + π else arctan (y / x) - π)
  else
    (if 0 < y then π / 2 else if y < 0 then -(π / 2) else 0)

/-- The haversine great-circle distance (meters) between two polyline points,
as inlined in `getMidpoint` (`results-map.tsx` lines 62-77).  A polyline
point is a `[longitude, latitude]` pair, modelled as `(lon, lat)`. -/
noncomputable def haversineDistance (point1 point2 : ℝ × ℝ) : ℝ :=
  let lat1 := point1.2
  let lon1 := point1.1
  let lat2 := point2.2
  let lon2 := point2.1
  let R : ℝ := 6371e3
  let phi1 := lat1 * π / 180
  let phi2 := lat2 * π / 180
  let dphi := (lat2 - lat1) * π / 180
  let dlam := (lon2 - lon1) * π / 180
  let a := sin (dphi / 2) * sin (dphi / 2) +
    cos phi1 * cos phi2 * sin (dlam / 2) * sin (dlam / 2)
  let c := 2 * atan2 (sqrt a) (sqrt (1 - a))
  R * c

/-- `route.geometry` of the `RouteData` interface (`results-map.tsx` lines 38-44). -/
structure RouteGeometry where
  coordinates : List (ℝ × ℝ)

/-- The `RouteData` interface (`results-map.tsx` lines 38-44). -/
structure RouteData where
  geometry : RouteGeometry
  duration : ℝ
  distance : ℝ

/-- Observable outcome of `getMidpoint`: the JS function returns `null`
for a null route, returns a `{lat, lng}` object, or throws a `TypeError`
when its final `coordinates[middleIndex]` indexing is out of bounds. -/
inductive MidpointResult where
  | nullResult : MidpointResult
  | coord (lat lng : ℝ) : MidpointResult
  | indexError : MidpointResult

/-- The accumulation loop of `getMidpoint` (`results-map.tsx` lines 54-89):
walk consecutive point pairs, accumulate haversine segment distances, and
on the first segment whose addition strictly exceeds `totalDistance / 2`
return the linear interpolation on that segment (as a `(lat, lng)` pair).
`none` means the loop ran off the end of the polyline. -/
noncomputable def midpointLoop : List (ℝ × ℝ) → ℝ → ℝ → Option (ℝ × ℝ)
  | point1 :: point2 :: rest, currentDistance, totalDistance =>
    let segmentDistance := haversineDistance point1 point2
    if currentDistance + segmentDistance > totalDistance / 2 then
      let ratio := (totalDistance / 2 - currentDistance) / segmentDistance
      some (point1.2 + ratio * (point2.2 - point1.2),
            point1.1 + ratio * (point2.1 - point1.1))
    else
      midpointLoop (point2 :: rest) (currentDistance + segmentDistance) totalDistance
  | _, _, _ => none

/-- JS array indexing `coordinates[i]` as an explicit partial operation:
`none` models the out-of-bounds access (whose `[1]` projection then throws
a `TypeError` in the source). -/
def indexAt : List (ℝ × ℝ) → ℕ → Option (ℝ × ℝ)
  | [], _ => none
  | p :: _, 0 => some p
  | _ :: rest, i + 1 => indexAt rest i

/-- `getMidpoint` (`results-map.tsx` lines 47-97).  A `none` route models the
JS `null`/`undefined` argument.  When the loop finds no crossing segment the
fallback returns `coordinates[Math.floor(coordinates.length / 2)]`; indexing
past the end (possible only for an empty polyline) is `indexError`. -/
noncomputable def getMidpoint (route : Option RouteData) : MidpointResult :=
  match route with
  | none => MidpointResult.nullResult
  | some r =>
    match midpointLoop r.geometry.coordinates 0 r.distance with
    | some (lat, lng) => MidpointResult.coord lat lng
    | none =>
      let middleIndex := r.geometry.coordinates.length / 2
      match indexAt r.geometry.coordinates middleIndex with
      | some p => MidpointResult.coord p.2 p.1
      | none => MidpointResult.indexError

/-- Haversine length of the `i`-th polyline segment (between points `i` and
`i + 1`), used to state the crossing condition of `getMidpoint`. -/
noncomputable def segDist (coords : List (ℝ × ℝ)) (i : ℕ) : ℝ :=
  haversineDistance (coords.getD i (0, 0)) (coords.getD (i + 1) (0, 0))

/-- Sum of the haversine lengths of segments `0 .. i - 1`: the value of
`currentDistance` when `getMidpoint`'s loop reaches index `i`. -/
noncomputable def accDist (coords : List (ℝ × ℝ)) : ℕ → ℝ
  | 0 => 0
  | i + 1 => accDist coords i + segDist coords i

/-- The `Point`/coordinate record `{lat, lng}` of `calculateMidpoint`
(`app-structure.md` lines 101-104). -/
structure Point where
  lat : ℝ
  lng : ℝ

/-- Modelled from the spec: the `toRadians` helper imported by
`calculateMidpoint` from `lib/utils`, which is not among the sources; the
spec says the resolver converts both points to radians, the standard
degree-to-radian conversion. -/
noncomputable def toRadians (deg : ℝ) : ℝ := deg * π / 180

/-- Modelled from the spec: the `toDegrees` helper imported by
`calculateMidpoint` from `lib/utils`, which is not among the sources; the
spec says the resolver converts back to degrees, the standard
radian-to-degree conversion. -/
noncomputable def toDegrees (rad : ℝ) : ℝ := rad * 180 / π

/-- The pure midpoint computation of `calculateMidpoint`
(`app-structure.md` lines 106-136): the Bx/By two-point great-circle
midpoint formula.  The travel-time lookups the source performs afterwards
are external collaborator calls and do not affect the returned midpoint
coordinate, which is what this definition models. -/
noncomputable def calculateMidpoint (start stop : Point) : Point :=
  let lat1 := toRadians start.lat
  let lon1 := toRadians start.lng
  let lat2 := toRadians stop.lat
  let lon2 := toRadians stop.lng
  let Bx := cos lat2 * cos (lon2 - lon1)
  let By := cos lat2 * sin (lon2 - lon1)
  let midLat := atan2 (sin lat1 + sin lat2)
    (sqrt ((cos lat1 + Bx) * (cos lat1 + Bx) + By * By))
  let midLng := lon1 + atan2 By (cos lat1 + Bx)
  { lat := toDegrees midLat, lng := toDegrees midLng }

/-- Duration/distance of one fetched route leg: the `{duration, distance}`
payload a successful `getRouteAction` call delivers to the POI scorer. -/
structure RouteLeg where
  duration : ℚ
  distance : ℚ
  deriving DecidableEq

/-- The fields of a fetched POI that the travel-time scorer reads
(`part_003`): an optional OSM id plus display name and type tag. -/
structure PoiResponse where
  osm_id : Option String
  name : String
  type : String
  deriving DecidableEq

/-- The `PoiWithTravelTimes` interface (`part_003` lines 58-67): a POI
enriched with optional travel times, distances, and derived fields. -/
structure PoiWithTravelTimes extends PoiResponse where
  travelTimeFromStart : Option ℚ := none
  travelTimeFromEnd : Option ℚ := none
  distanceFromStart : Option ℚ := none
  distanceFromEnd : Option ℚ := none
  totalTravelTime : Option ℚ := none
  travelTimeDifference : Option ℚ := none
  isFavorite : Option Bool := none
  deriving DecidableEq

/-- The `SortOption` union type (`part_003` lines 69-74). -/
inductive SortOption where
  | name
  | distanceFromStart
  | distanceFromEnd
  | totalTime
  | timeDifference
  deriving DecidableEq

/-- The `FilterOption` union type (`part_003` line 75). -/
inductive FilterOption where
  | all
  | food
  | activities
  | lodging
  | other
  deriving DecidableEq

/-- The `MaxTimeDifference` union type `5 | 10 | 15 | 30 | 999`
(`part_003` line 76), in minutes. -/
inductive MaxTimeDifference where
  | five
  | ten
  | fifteen
  | thirty
  | noLimit
  deriving DecidableEq

/-- The numeric value (minutes) of a `MaxTimeDifference` choice. -/
def MaxTimeDifference.toMinutes : MaxTimeDifference → ℚ
  | .five => 5
  | .ten => 10
  | .fifteen => 15
  | .thirty => 30
  | .noLimit => 999

/-- Per-POI core of the `calculateTravelTimes` effect (`part_003` lines
126-194).  The two `getRouteAction` fetches are external collaborators;
their outcomes enter here as `Option RouteLeg` (`none` models
`isSuccess === false` or missing `data`).  `favorites` is the favorites
id list read from local storage. -/
def calculateTravelTimes (poi : PoiResponse) (startRoute endRoute : Option RouteLeg)
    (favorites : List String) : PoiWithTravelTimes :=
  let travelTimeFromStart := startRoute.map RouteLeg.duration
  let travelTimeFromEnd := endRoute.map RouteLeg.duration
  let distanceFromStart := startRoute.map RouteLeg.distance
  let distanceFromEnd := endRoute.map RouteLeg.distance
  let totalTravelTime :=
    match travelTimeFromStart, travelTimeFromEnd with
    | some a, some b => some (a + b)
    | _, _ => none
  let travelTimeDifference :=
    match travelTimeFromStart, travelTimeFromEnd with
    | some a, some b => some |b - a|
    | _, _ => none
  { toPoiResponse := poi
    travelTimeFromStart := travelTimeFromStart
    travelTimeFromEnd := travelTimeFromEnd
    distanceFromStart := distanceFromStart
    distanceFromEnd := distanceFromEnd
    totalTravelTime := totalTravelTime
    travelTimeDifference := travelTimeDifference
    isFavorite := some (favorites.contains (poi.osm_id.getD "")) }

/-- Model of JS `String.prototype.toLowerCase` as used on POI type tags
(which are ASCII): lower-case every character. -/
def toLowerCase (s : String) : String := ⟨s.data.map Char.toLower⟩

/-- `getPoiCategory` (`part_003` lines 273-286): the fixed type-tag to
category mapping, applied to the lowercased tag. -/
def getPoiCategory (type : String) : FilterOption :=
  let t := toLowerCase type
  if t ∈ ["restaurant", "cafe", "bar", "pub", "fast_food"] then FilterOption.food
  else if t ∈ ["park", "cinema", "theatre", "theater", "museum"] then FilterOption.activities
  else if t ∈ ["hotel", "hostel", "guest_house"] then FilterOption.lodging
  else FilterOption.other

/-- The time-difference cutoff test of the filter (`part_003` lines
297-302): JS evaluates `poi.travelTimeDifference &&
poi.travelTimeDifference / 60 > maxTimeDifference`, where `undefined`
and `0` are falsy. -/
def timeDiffExceeds (maxTimeDifference : MaxTimeDifference) : Option ℚ → Bool
  | none => false
  | some d => decide (d ≠ 0) && decide (d / 60 > maxTimeDifference.toMinutes)

/-- The filter predicate of `sortedAndFilteredPois` (`part_003` lines
289-310): category rule, then time-difference rule, then favorites rule. -/
def poiFilter (activeTab : FilterOption) (maxTimeDifference : MaxTimeDifference)
    (showOnlyFavorites : Bool) (poi : PoiWithTravelTimes) : Bool :=
  if activeTab ≠ FilterOption.all ∧ getPoiCategory poi.type ≠ activeTab then false
  else if timeDiffExceeds maxTimeDifference poi.travelTimeDifference then false
  else if showOnlyFavorites = true ∧ poi.isFavorite ≠ some true then false
  else true

/-- Model of JS `String.prototype.localeCompare`: negative, zero or
positive according to the lexicographic comparison of the two names. -/
def localeCompare (a b : String) : ℚ :=
  if a < b then -1 else if b < a then 1 else 0

/-- JS `x || 0` applied to a possibly-absent number: `undefined` falls
back to `0` (and a present `0`, also falsy, yields `0` as well). -/
def orZero : Option ℚ → ℚ
  | none => 0
  | some x => x

/-- The sort comparator of `sortedAndFilteredPois` (`part_003` lines
311-326): name is compared lexicographically; every numeric key reads its
optional field through `|| 0`. -/
def sortComparator (sortBy : SortOption) (a b : PoiWithTravelTimes) : ℚ :=
  match sortBy with
  | SortOption.name => localeCompare a.name b.name
  | SortOption.distanceFromStart => orZero a.distanceFromStart - orZero b.distanceFromStart
  | SortOption.distanceFromEnd => orZero a.distanceFromEnd - orZero b.distanceFromEnd
  | SortOption.totalTime => orZero a.totalTravelTime - orZero b.totalTravelTime
  | SortOption.timeDifference => orZero a.travelTimeDifference - orZero b.travelTimeDifference

/-- The optional field each numeric sort key reads (`name` reads none). -/
def sortKeyField : SortOption → PoiWithTravelTimes → Option ℚ
  | SortOption.name, _ => none
  | SortOption.distanceFromStart, p => p.distanceFromStart
  | SortOption.distanceFromEnd, p => p.distanceFromEnd
  | SortOption.totalTime, p => p.totalTravelTime
  | SortOption.timeDifference, p => p.travelTimeDifference

/-- `sortedAndFilteredPois` (`part_003` lines 288-326): filter, then sort
with the comparator.  JS `Array.prototype.sort` is a stable sort in which
`a` precedes `b` when the comparator result is nonpositive; `mergeSort`
with that Boolean relation is its standard model. -/
def sortedAndFilteredPois (poisWithTravelTimes : List PoiWithTravelTimes)
    (activeTab : FilterOption) (maxTimeDifference : MaxTimeDifference)
    (showOnlyFavorites : Bool) (sortBy : SortOption) : List PoiWithTravelTimes :=
  (poisWithTravelTimes.filter
      (poiFilter activeTab maxTimeDifference showOnlyFavorites)).mergeSort
    (fun a b => decide (sortComparator sortBy a b ≤ 0))

/-! ### Helper lemmas -/

/-- For a positive x-argument, `atan2` of a positive y-argument is positive. -/
theorem atan2_pos_of_pos {y x : ℝ} (hy : 0 < y) (hx : 0 < x) : 0 < atan2 y x := by
  rw [atan2, if_pos hx]
  have h := Real.arctan_strictMono (show (0 : ℝ) < y / x from div_pos hy hx)
  simpa using h

/-- For a positive x-argument, `atan2` of a negative y-argument is negative. -/
theorem atan2_neg_of_neg {y x : ℝ} (hy : y < 0) (hx : 0 < x) : atan2 y x < 0 := by
  rw [atan2, if_pos hx]
  have h := Real.arctan_strictMono (show y / x < (0 : ℝ) from div_neg_of_neg_of_pos hy hx)
  simpa using h

/-- For a positive x-argument, `atan2` stays below a right angle. -/
theorem atan2_lt_pi_div_two {y x : ℝ} (hx : 0 < x) : atan2 y x < π / 2 := by
  rw [atan2, if_pos hx]
  exact Real.arctan_lt_pi_div_two _

/-- The haversine `a`-term is invariant under swapping the two endpoints. -/
theorem haversine_arg_symm (la1 lo1 la2 lo2 : ℝ) :
    sin ((la2 - la1) * π / 180 / 2) * sin ((la2 - la1) * π / 180 / 2) +
      cos (la1 * π / 180) * cos (la2 * π / 180) *
        sin ((lo2 - lo1) * π / 180 / 2) * sin ((lo2 - lo1) * π / 180 / 2) =
    sin ((la1 - la2) * π / 180 / 2) * sin ((la1 - la2) * π / 180 / 2) +
      cos (la2 * π / 180) * cos (la1 * π / 180) *
        sin ((lo1 - lo2) * π / 180 / 2) * sin ((lo1 - lo2) * π / 180 / 2) := by
  rw [show (la1 - la2) * π / 180 / 2 = -((la2 - la1) * π / 180 / 2) by ring,
      show (lo1 - lo2) * π / 180 / 2 = -((lo2 - lo1) * π / 180 / 2) by ring,
      Real.sin_neg, Real.sin_neg]
  ring

/-- Segment lengths shift by one when the head point is dropped. -/
theorem segDist_cons (p : ℝ × ℝ) (l : List (ℝ × ℝ)) (j : ℕ) :
    segDist (p :: l) (j + 1) = segDist l j := by
  simp [segDist]

/-- Accumulated distance over a cons decomposes into the first segment plus
the accumulated distance over the tail. -/
theorem accDist_cons (p : ℝ × ℝ) (l : List (ℝ × ℝ)) (j : ℕ) :
    accDist (p :: l) (j + 1) = segDist (p :: l) 0 + accDist l j := by
  induction j with
  | zero => simp [accDist]
  | succ j ih =>
    rw [accDist, ih, accDist, segDist_cons]
    ring

/-- If `i` is the first index whose segment pushes the running total past
half the supplied distance, the loop stops there and interpolates on that
segment with ratio `(half - accumulatedBefore) / segmentDistance`. -/
theorem midpointLoop_crossing :
    ∀ (i : ℕ) (coords : List (ℝ × ℝ)) (currentDistance totalDistance : ℝ),
    i + 1 < coords.length →
    (∀ j, j < i →
      currentDistance + accDist coords j + segDist coords j ≤ totalDistance / 2) →
    currentDistance + accDist coords i + segDist coords i > totalDistance / 2 →
    midpointLoop coords currentDistance totalDistance =
      some ((coords.getD i (0, 0)).2 +
              (totalDistance / 2 - (currentDistance + accDist coords i)) / segDist coords i *
                ((coords.getD (i + 1) (0, 0)).2 - (coords.getD i (0, 0)).2),
            (coords.getD i (0, 0)).1 +
              (totalDistance / 2 - (currentDistance + accDist coords i)) / segDist coords i *
                ((coords.getD (i + 1) (0, 0)).1 - (coords.getD i (0, 0)).1)) := by
  intro i
  induction i with
  | zero =>
    intro coords cur total hlen hmin hcross
    obtain _ | ⟨p1, tail⟩ := coords
    · simp at hlen
    obtain _ | ⟨p2, rest⟩ := tail
    · simp at hlen
    have hseg : segDist (p1 :: p2 :: rest) 0 = haversineDistance p1 p2 := by
      simp [segDist]
    have hc : cur + haversineDistance p1 p2 > total / 2 := by
      simpa [accDist, hseg] using hcross
    simp only [midpointLoop]
    rw [if_pos hc]
    simp [accDist, segDist]
  | succ i ih =>
    intro coords cur total hlen hmin hcross
    obtain _ | ⟨p1, tail⟩ := coords
    · simp at hlen
    obtain _ | ⟨p2, rest⟩ := tail
    · simp at hlen
    have hseg0 : segDist (p1 :: p2 :: rest) 0 = haversineDistance p1 p2 := by
      simp [segDist]
    have hfirst : cur + haversineDistance p1 p2 ≤ total / 2 := by
      have h0 := hmin 0 (Nat.succ_pos i)
      simpa [accDist, hseg0] using h0
    simp only [midpointLoop]
    rw [if_neg (not_lt.mpr hfirst)]
    have hlen' : i + 1 < (p2 :: rest).length := by
      simpa using Nat.lt_of_succ_lt_succ hlen
    have hmin' : ∀ j, j < i →
        cur + haversineDistance p1 p2 + accDist (p2 :: rest) j + segDist (p2 :: rest) j ≤
          total / 2 := by
      intro j hj
      have h := hmin (j + 1) (Nat.succ_lt_succ hj)
      rw [accDist_cons, segDist_cons, hseg0] at h
      linarith
    have hcross' : cur + haversineDistance p1 p2 + accDist (p2 :: rest) i +
        segDist (p2 :: rest) i > total / 2 := by
      have h := hcross
      rw [accDist_cons, segDist_cons, hseg0] at h
      linarith
    have h := ih (p2 :: rest) (cur + haversineDistance p1 p2) total hlen' hmin' hcross'
    rw [h]
    have e1 : (p2 :: rest).getD i (0, 0) = (p1 :: p2 :: rest).getD (i + 1) (0, 0) := by
      simp
    have e2 : (p2 :: rest).getD (i + 1) (0, 0) = (p1 :: p2 :: rest).getD (i + 2) (0, 0) := by
      simp
    have e3 : segDist (p2 :: rest) i = segDist (p1 :: p2 :: rest) (i + 1) :=
      (segDist_cons p1 (p2 :: rest) i).symm
    have e4 : cur + haversineDistance p1 p2 + accDist (p2 :: rest) i =
        cur + accDist (p1 :: p2 :: rest) (i + 1) := by
      rw [accDist_cons, hseg0]
      ring
    rw [e1, e2, e3, e4]

/-- If no segment ever pushes the running total past half the supplied
distance, the loop runs off the end of the polyline. -/
theorem midpointLoop_no_crossing :
    ∀ (coords : List (ℝ × ℝ)) (currentDistance totalDistance : ℝ),
    (∀ i, i + 1 < coords.length →
      currentDistance + accDist coords i + segDist coords i ≤ totalDistance / 2) →
    midpointLoop coords currentDistance totalDistance = none := by
  intro coords
  induction coords with
  | nil =>
    intro cur total h
    rfl
  | cons p1 tail ih =>
    intro cur total h
    obtain _ | ⟨p2, rest⟩ := tail
    · rfl
    have hseg0 : segDist (p1 :: p2 :: rest) 0 = haversineDistance p1 p2 := by
      simp [segDist]
    have h0 : cur + haversineDistance p1 p2 ≤ total / 2 := by
      have := h 0 (by simp)
      simpa [accDist, hseg0] using this
    simp only [midpointLoop]
    rw [if_neg (not_lt.mpr h0)]
    apply ih
    intro i hi
    have hh := h (i + 1) (by simpa using Nat.succ_lt_succ hi)
    rw [accDist_cons, segDist_cons, hseg0] at hh
    linarith

/-- In-bounds JS indexing returns the element. -/
theorem indexAt_eq_getD (l : List (ℝ × ℝ)) (i : ℕ) (h : i < l.length) :
    indexAt l i = some (l.getD i (0, 0)) := by
  induction l generalizing i with
  | nil => simp at h
  | cons p tail ih =>
    cases i with
    | zero => simp [indexAt]
    | succ i =>
      simpa [indexAt] using ih i (by simpa using h)

/-! ### Claim theorems -/

/-- C9: the great-circle distance function is symmetric:
`distance(a, b) = distance(b, a)` for every pair of coordinates. -/
theorem c9_distance_symmetric (p1 p2 : ℝ × ℝ) :
    haversineDistance p1 p2 = haversineDistance p2 p1 := by
  simp only [haversineDistance]
  rw [haversine_arg_symm p1.2 p1.1 p2.2 p2.1]

/-- C2 counterexample: a route whose polyline has exactly 1 point does not
fail: `getMidpoint` returns that point, contradicting the claim that a
polyline with fewer than 2 points fails with `InvalidRoute`. -/
theorem c2_counterexample :
    getMidpoint (some ⟨⟨[(7, 5)]⟩, 42, 100⟩) = MidpointResult.coord 5 7 := by
  rfl

/-- C2 amended: a route with exactly one polyline point yields that single
point (the middle-index fallback), not a failure; `getMidpoint` has no
`InvalidRoute` outcome at all. -/
theorem c2_amended (p : ℝ × ℝ) (dur dist : ℝ) :
    getMidpoint (some ⟨⟨[p]⟩, dur, dist⟩) = MidpointResult.coord p.2 p.1 := by
  simp [getMidpoint, midpointLoop, indexAt]

/-- C7 counterexample: the claim maps every tag outside its three listed
sets to `other`, but the code also maps `theater` (an unlisted spelling) to
`activities`, and maps the unlisted capitalised tag `Restaurant` to `food`
because it matches on the lowercased tag. -/
theorem c7_counterexample :
    getPoiCategory "theater" = FilterOption.activities ∧
    getPoiCategory "Restaurant" = FilterOption.food ∧
    ("theater" : String) ∉ ["restaurant", "cafe", "bar", "pub", "fast_food",
      "park", "cinema", "theatre", "museum", "hotel", "hostel", "guest_house"] ∧
    ("Restaurant" : String) ∉ ["restaurant", "cafe", "bar", "pub", "fast_food",
      "park", "cinema", "theatre", "museum", "hotel", "hostel", "guest_house"] := by
  refine ⟨by decide, by decide, by decide, by decide⟩

/-- C7 amended: the category is derived from the lowercased type tag, with
`theater` also mapping to activities: lowercased tags in
restaurant/cafe/bar/pub/fast_food map to food, in
park/cinema/theatre/theater/museum to activities, in
hotel/hostel/guest_house to lodging, and all remaining tags to other. -/
theorem c7_amended :
    (∀ s : String, toLowerCase s ∈ ["restaurant", "cafe", "bar", "pub", "fast_food"] →
      getPoiCategory s = FilterOption.food) ∧
    (∀ s : String, toLowerCase s ∈ ["park", "cinema", "theatre", "theater", "museum"] →
      getPoiCategory s = FilterOption.activities) ∧
    (∀ s : String, toLowerCase s ∈ ["hotel", "hostel", "guest_house"] →
      getPoiCategory s = FilterOption.lodging) ∧
    (∀ s : String, toLowerCase s ∉ ["restaurant", "cafe", "bar", "pub", "fast_food"] →
      toLowerCase s ∉ ["park", "cinema", "theatre", "theater", "museum"] →
      toLowerCase s ∉ ["hotel", "hostel", "guest_house"] →
      getPoiCategory s = FilterOption.other) := by
  refine ⟨?_, ?_, ?_, ?_⟩
  · intro s h
    simp [getPoiCategory, h]
  · intro s h
    have h' : toLowerCase s = "park" ∨ toLowerCase s = "cinema" ∨
        toLowerCase s = "theatre" ∨ toLowerCase s = "theater" ∨
        toLowerCase s = "museum" := by simpa using h
    have hf : toLowerCase s ∉ ["restaurant", "cafe", "bar", "pub", "fast_food"] := by
      rcases h' with h' | h' | h' | h' | h' <;> rw [h'] <;> decide
    simp [getPoiCategory, hf, h]
  · intro s h
    have h' : toLowerCase s = "hotel" ∨ toLowerCase s = "hostel" ∨
        toLowerCase s = "guest_house" := by simpa using h
    have hf : toLowerCase s ∉ ["restaurant", "cafe", "bar", "pub", "fast_food"] := by
      rcases h' with h' | h' | h' <;> rw [h'] <;> decide
    have ha : toLowerCase s ∉ ["park", "cinema", "theatre", "theater", "museum"] := by
      rcases h' with h' | h' | h' <;> rw [h'] <;> decide
    simp [getPoiCategory, hf, ha, h]
  · intro s h1 h2 h3
    simp [getPoiCategory, h1, h2, h3]

/-- C7 amended, witnessed at the tag `library`, which is in none of the
three lists and is therefore categorised as `other`. -/
theorem c7_amended_witness :
    toLowerCase "library" ∉ ["restaurant", "cafe", "bar", "pub", "fast_food"] ∧
    getPoiCategory "library" = FilterOption.other := by
  refine ⟨by decide, ?_⟩
  exact c7_amended.2.2.2 "library" (by decide) (by decide) (by decide)

/-- C4: the travel-time scorer derives `totalTime` and `timeDifference`
only when both travel times are present (absent otherwise, never zero or
one-sided); when both are present the total is their sum and the
difference their absolute difference. -/
theorem c4_travel_time_scorer (poi : PoiResponse) (startRoute endRoute : Option RouteLeg)
    (favorites : List String) :
    (((calculateTravelTimes poi startRoute endRoute favorites).travelTimeFromStart = none ∨
      (calculateTravelTimes poi startRoute endRoute favorites).travelTimeFromEnd = none) →
      (calculateTravelTimes poi startRoute endRoute favorites).totalTravelTime = none ∧
      (calculateTravelTimes poi startRoute endRoute favorites).travelTimeDifference = none) ∧
    (∀ a b : ℚ,
      (calculateTravelTimes poi startRoute endRoute favorites).travelTimeFromStart = some a →
      (calculateTravelTimes poi startRoute endRoute favorites).travelTimeFromEnd = some b →
      (calculateTravelTimes poi startRoute endRoute favorites).totalTravelTime = some (a + b) ∧
      (calculateTravelTimes poi startRoute endRoute favorites).travelTimeDifference =
        some |a - b|) := by
  refine ⟨?_, ?_⟩
  · intro h
    cases startRoute <;> cases endRoute <;> simp_all [calculateTravelTimes]
  · intro a b ha hb
    cases startRoute <;> cases endRoute <;> simp_all [calculateTravelTimes, abs_sub_comm]

/-- C4 witness: scenario 3 of the spec, travel times 600 s and 900 s give
total 1500 s and difference 300 s. -/
theorem c4_witness :
    (calculateTravelTimes ⟨none, "Cafe X", "cafe"⟩ (some ⟨600, 1000⟩) (some ⟨900, 2000⟩)
        []).totalTravelTime = some 1500 ∧
    (calculateTravelTimes ⟨none, "Cafe X", "cafe"⟩ (some ⟨600, 1000⟩) (some ⟨900, 2000⟩)
        []).travelTimeDifference = some 300 := by
  have h := (c4_travel_time_scorer ⟨none, "Cafe X", "cafe"⟩ (some ⟨600, 1000⟩)
    (some ⟨900, 2000⟩) []).2 600 900 rfl rfl
  refine ⟨?_, ?_⟩
  · rw [h.1]
    norm_num
  · rw [h.2]
    norm_num

/-- C5: the filter drops every POI whose present time difference exceeds
the maximum-allowed difference (the cutoff is in minutes, the difference in
seconds, compared as `difference / 60 > cutoff`), and a POI with an absent
time difference is never dropped by this rule: its fate is decided solely
by the category and favorites rules. -/
theorem c5_time_difference_filter :
    (∀ (activeTab : FilterOption) (maxTD : MaxTimeDifference) (showFav : Bool)
        (poi : PoiWithTravelTimes) (d : ℚ),
        poi.travelTimeDifference = some d → maxTD.toMinutes < d / 60 →
        poiFilter activeTab maxTD showFav poi = false) ∧
    (∀ (activeTab : FilterOption) (maxTD : MaxTimeDifference) (showFav : Bool)
        (poi : PoiWithTravelTimes),
        poi.travelTimeDifference = none →
        (poiFilter activeTab maxTD showFav poi = true ↔
          ((activeTab = FilterOption.all ∨ getPoiCategory poi.type = activeTab) ∧
           (showFav = false ∨ poi.isFavorite = some true)))) := by
  constructor
  · intro tab maxTD fav poi d hd hgt
    have hmax : (0 : ℚ) < maxTD.toMinutes := by
      cases maxTD <;> norm_num [MaxTimeDifference.toMinutes]
    have hdpos : (0 : ℚ) < d := by linarith
    have hex : timeDiffExceeds maxTD poi.travelTimeDifference = true := by
      rw [hd]
      simp [timeDiffExceeds]
      exact ⟨ne_of_gt hdpos, hgt⟩
    by_cases h1 : tab ≠ FilterOption.all ∧ getPoiCategory poi.type ≠ tab
    · simp [poiFilter, h1]
    · simp [poiFilter, h1, hex]
  · intro tab maxTD fav poi hd
    have hex : timeDiffExceeds maxTD poi.travelTimeDifference = false := by
      rw [hd]
      rfl
    cases fav <;>
      by_cases h1 : tab ≠ FilterOption.all ∧ getPoiCategory poi.type ≠ tab <;>
        by_cases h2 : poi.isFavorite = some true <;>
          simp [poiFilter, h1, h2, hex] <;> tauto

/-- C5 witness: with the 5-minute cutoff, a POI whose time difference is
400 s (6 min 40 s) is dropped, and a POI with no time difference passes
the all-categories, favorites-off filter. -/
theorem c5_witness :
    poiFilter FilterOption.all MaxTimeDifference.five false
      { osm_id := none, name := "P", type := "cafe", travelTimeDifference := some 400 } =
        false ∧
    poiFilter FilterOption.all MaxTimeDifference.five false
      { osm_id := none, name := "Q", type := "cafe" } = true := by
  constructor
  · exact c5_time_difference_filter.1 FilterOption.all MaxTimeDifference.five false
      _ 400 rfl (by norm_num [MaxTimeDifference.toMinutes])
  · exact (c5_time_difference_filter.2 FilterOption.all MaxTimeDifference.five false
      _ rfl).mpr ⟨Or.inl rfl, Or.inl rfl⟩

/-- A POI whose numeric fields are all absent, used to exhibit the sort
behaviour on absent values. -/
def poiAbsent : PoiWithTravelTimes :=
  { osm_id := none, name := "Absent", type := "cafe" }

/-- A POI with a present positive total travel time, used to exhibit the
sort behaviour on absent values. -/
def poiPresent : PoiWithTravelTimes :=
  { osm_id := none, name := "Present", type := "cafe",
    totalTravelTime := some 100 }

/-- C6 counterexample: sorting by total time places the POI with an absent
total time FIRST, before the POI whose total time is 100 s — absent values
are treated as zero by the `|| 0` fallback, not sorted last. -/
theorem c6_counterexample :
    sortedAndFilteredPois [poiPresent, poiAbsent] FilterOption.all
      MaxTimeDifference.noLimit false SortOption.totalTime = [poiAbsent, poiPresent] ∧
    poiAbsent.totalTravelTime = none ∧
    poiPresent.totalTravelTime = some 100 := by
  refine ⟨?_, rfl, rfl⟩
  have hfilter : List.filter (poiFilter FilterOption.all MaxTimeDifference.noLimit false)
      [poiPresent, poiAbsent] = [poiPresent, poiAbsent] := by
    simp [poiFilter, poiAbsent, poiPresent, timeDiffExceeds]
  simp only [sortedAndFilteredPois]
  rw [hfilter]
  norm_num [List.mergeSort, sortComparator, orZero, poiAbsent, poiPresent]

/-- C6 amended: in every numeric sort, an absent value is treated exactly
as zero (the `|| 0` fallback), so a POI with an absent key value sorts
strictly BEFORE every POI whose present value is positive — absent values
sort first among positive-valued POIs, not last. -/
theorem c6_amended (k : SortOption) (a b : PoiWithTravelTimes) (v : ℚ)
    (ha : sortKeyField k a = none) (hb : sortKeyField k b = some v) (hv : 0 < v) :
    sortComparator k a b < 0 ∧ 0 < sortComparator k b a := by
  cases k <;> simp [sortKeyField] at ha hb <;>
    simp [sortComparator, orZero, ha, hb] <;> linarith

/-- C6 amended, witnessed on the two concrete POIs of the counterexample
under the total-time sort key. -/
theorem c6_amended_witness :
    sortComparator SortOption.totalTime poiAbsent poiPresent < 0 ∧
    0 < sortComparator SortOption.totalTime poiPresent poiAbsent := by
  exact c6_amended SortOption.totalTime poiAbsent poiPresent 100 rfl rfl (by norm_num)

/-- C1: on a route whose polyline crosses the half-distance threshold,
`getMidpoint` stops at the first crossing segment `i` and returns the
linear interpolation between that segment's endpoints with ratio
`(totalLength/2 - distanceAccumulatedBeforeSegment) / segmentDistance`. -/
theorem c1_route_midpoint_interpolation (r : RouteData) (i : ℕ)
    (hlen : i + 1 < r.geometry.coordinates.length)
    (hfirst : ∀ j, j < i →
      accDist r.geometry.coordinates j + segDist r.geometry.coordinates j ≤ r.distance / 2)
    (hcross : accDist r.geometry.coordinates i + segDist r.geometry.coordinates i >
      r.distance / 2) :
    getMidpoint (some r) = MidpointResult.coord
      ((r.geometry.coordinates.getD i (0, 0)).2 +
        (r.distance / 2 - accDist r.geometry.coordinates i) / segDist r.geometry.coordinates i *
          ((r.geometry.coordinates.getD (i + 1) (0, 0)).2 -
            (r.geometry.coordinates.getD i (0, 0)).2))
      ((r.geometry.coordinates.getD i (0, 0)).1 +
        (r.distance / 2 - accDist r.geometry.coordinates i) / segDist r.geometry.coordinates i *
          ((r.geometry.coordinates.getD (i + 1) (0, 0)).1 -
            (r.geometry.coordinates.getD i (0, 0)).1)) := by
  have h := midpointLoop_crossing i r.geometry.coordinates 0 r.distance hlen
    (by
      intro j hj
      simpa using hfirst j hj)
    (by simpa using hcross)
  simp only [getMidpoint]
  rw [h]
  norm_num

/-- C3: on a route where no segment ever crosses the half-distance
threshold, `getMidpoint` returns the polyline coordinate at the middle
index (point count integer-divided by 2) — a defined result, not a
failure.  (The polyline must be nonempty for a middle coordinate to
exist; the spec's Route invariant guarantees at least two points.) -/
theorem c3_middle_index_fallback (r : RouteData)
    (hne : r.geometry.coordinates ≠ [])
    (hnc : ∀ i, i + 1 < r.geometry.coordinates.length →
      accDist r.geometry.coordinates i + segDist r.geometry.coordinates i ≤ r.distance / 2) :
    getMidpoint (some r) = MidpointResult.coord
      ((r.geometry.coordinates.getD (r.geometry.coordinates.length / 2) (0, 0)).2)
      ((r.geometry.coordinates.getD (r.geometry.coordinates.length / 2) (0, 0)).1) := by
  have hnone := midpointLoop_no_crossing r.geometry.coordinates 0 r.distance
    (by
      intro i hi
      simpa using hnc i hi)
  have hlt : r.geometry.coordinates.length / 2 < r.geometry.coordinates.length :=
    Nat.div_lt_self (List.length_pos.mpr hne) one_lt_two
  have hidx := indexAt_eq_getD r.geometry.coordinates
    (r.geometry.coordinates.length / 2) hlt
  simp only [getMidpoint]
  rw [hnone, hidx]

/-- C10: `getMidpoint` is total on routes with a nonempty polyline (it
always produces a coordinate, with no error and no `InvalidRoute`-style
failure), returns null exactly for the null route, and hits its
out-of-bounds indexing exactly on an empty coordinate array. -/
theorem c10_getMidpoint_totality :
    getMidpoint none = MidpointResult.nullResult ∧
    (∀ r : RouteData, r.geometry.coordinates ≠ [] →
      ∃ lat lng, getMidpoint (some r) = MidpointResult.coord lat lng) ∧
    (∀ r : RouteData, (getMidpoint (some r) = MidpointResult.indexError ↔
      r.geometry.coordinates = [])) ∧
    (∀ r : RouteData, getMidpoint (some r) ≠ MidpointResult.nullResult) := by
  have key : ∀ r : RouteData,
      (∃ lat lng, getMidpoint (some r) = MidpointResult.coord lat lng) ∨
      (getMidpoint (some r) = MidpointResult.indexError ∧
        r.geometry.coordinates = []) := by
    intro r
    obtain ⟨⟨cs⟩, dur, dist⟩ := r
    rcases hl : midpointLoop cs 0 dist with _ | ⟨lat, lng⟩
    · obtain _ | ⟨p, tail⟩ := cs
      · right
        exact ⟨by simp [getMidpoint, midpointLoop, indexAt], rfl⟩
      · left
        have hlt : (p :: tail).length / 2 < (p :: tail).length :=
          Nat.div_lt_self (by simp) one_lt_two
        have hidx := indexAt_eq_getD (p :: tail) ((p :: tail).length / 2) hlt
        refine ⟨((p :: tail).getD ((p :: tail).length / 2) (0, 0)).2,
          ((p :: tail).getD ((p :: tail).length / 2) (0, 0)).1, ?_⟩
        simp only [getMidpoint]
        rw [hl, hidx]
    · left
      refine ⟨lat, lng, ?_⟩
      simp only [getMidpoint]
      rw [hl]
  refine ⟨rfl, ?_, ?_, ?_⟩
  · intro r hne
    rcases key r with h | ⟨_, hcs⟩
    · exact h
    · exact absurd hcs hne
  · intro r
    constructor
    · intro h
      rcases key r with ⟨lat, lng, h'⟩ | ⟨_, hcs⟩
      · rw [h'] at h
        exact absurd h (by simp)
      · exact hcs
    · intro hcs
      obtain ⟨⟨cs⟩, dur, dist⟩ := r
      simp only at hcs
      subst hcs
      simp [getMidpoint, midpointLoop, indexAt]
  · intro r
    rcases key r with ⟨lat, lng, h'⟩ | ⟨h', _⟩ <;> rw [h'] <;> simp

/-- C10 witness: a one-point route yields a coordinate result. -/
theorem c10_witness :
    (([((3 : ℝ), (4 : ℝ))] : List (ℝ × ℝ)) ≠ []) ∧
    (∃ lat lng, getMidpoint (some ⟨⟨[(3, 4)]⟩, 5, 6⟩) = MidpointResult.coord lat lng) := by
  refine ⟨by simp, ?_⟩
  exact c10_getMidpoint_totality.2.1 ⟨⟨[(3, 4)]⟩, 5, 6⟩ (by simp)

/-- The haversine distance from (0,0) to (0,2) (two degrees of latitude
along the prime meridian), reduced to a closed trigonometric form. -/
theorem haversine_eval_meridian :
    haversineDistance (0, 0) (0, 2) =
      6371e3 * (2 * atan2 (sqrt (sin (π / 180) * sin (π / 180)))
        (sqrt (1 - sin (π / 180) * sin (π / 180)))) := by
  simp only [haversineDistance]
  norm_num
  rw [show (2 : ℝ) * π / 180 / 2 = π / 180 by ring]

/-- `sin (π / 180)` lies strictly between 0 and 1. -/
theorem sin_pi_div_180_mem : 0 < sin (π / 180) ∧ sin (π / 180) < 1 := by
  constructor
  · exact sin_pos_of_pos_of_lt_pi (by positivity) (div_lt_self pi_pos (by norm_num))
  · have h1 : sin (π / 180) < π / 180 := Real.sin_lt (by positivity)
    have h2 : π / 180 < 1 := by
      rw [div_lt_one (by norm_num)]
      linarith [Real.pi_lt_d2]
    linarith

/-- The meridian test segment has positive haversine length. -/
theorem haversine_meridian_pos : 0 < haversineDistance (0, 0) (0, 2) := by
  rw [haversine_eval_meridian]
  obtain ⟨hs0, hs1⟩ := sin_pi_div_180_mem
  have ha1 : 0 < 1 - sin (π / 180) * sin (π / 180) := by nlinarith
  have hy : (0 : ℝ) < sqrt (sin (π / 180) * sin (π / 180)) := by
    rw [Real.sqrt_mul_self hs0.le]
    exact hs0
  have hx : (0 : ℝ) < sqrt (1 - sin (π / 180) * sin (π / 180)) := Real.sqrt_pos.mpr ha1
  have := atan2_pos_of_pos hy hx
  positivity

/-- The meridian test segment is shorter than `6371e3 * π` meters. -/
theorem haversine_meridian_lt : haversineDistance (0, 0) (0, 2) < 6371e3 * π := by
  rw [haversine_eval_meridian]
  obtain ⟨hs0, hs1⟩ := sin_pi_div_180_mem
  have ha1 : 0 < 1 - sin (π / 180) * sin (π / 180) := by nlinarith
  have hx : (0 : ℝ) < sqrt (1 - sin (π / 180) * sin (π / 180)) := Real.sqrt_pos.mpr ha1
  have h := atan2_lt_pi_div_two
    (y := sqrt (sin (π / 180) * sin (π / 180))) hx
  nlinarith [h]

/-- C1 witness: on the two-point route (0,0)-(0,2) with supplied total
length 0, the very first segment crosses the (zero) half distance, so the
theorem applies at `i = 0` and the interpolation with ratio 0 returns the
first point. -/
theorem c1_witness :
    accDist [((0 : ℝ), (0 : ℝ)), ((0 : ℝ), (2 : ℝ))] 0 +
        segDist [((0 : ℝ), (0 : ℝ)), ((0 : ℝ), (2 : ℝ))] 0 > (0 : ℝ) / 2 ∧
    getMidpoint (some ⟨⟨[(0, 0), (0, 2)]⟩, 0, 0⟩) = MidpointResult.coord 0 0 := by
  have hcross : accDist [((0 : ℝ), (0 : ℝ)), ((0 : ℝ), (2 : ℝ))] 0 +
      segDist [((0 : ℝ), (0 : ℝ)), ((0 : ℝ), (2 : ℝ))] 0 > (0 : ℝ) / 2 := by
    have hseg : segDist [((0 : ℝ), (0 : ℝ)), ((0 : ℝ), (2 : ℝ))] 0 =
        haversineDistance (0, 0) (0, 2) := by simp [segDist]
    rw [hseg]
    simpa [accDist] using haversine_meridian_pos
  refine ⟨hcross, ?_⟩
  have h := c1_route_midpoint_interpolation ⟨⟨[(0, 0), (0, 2)]⟩, 0, 0⟩ 0
    (by simp)
    (by
      intro j hj
      exact absurd hj (Nat.not_lt_zero j))
    hcross
  rw [h]
  norm_num [accDist]

/-- C3 witness: on the two-point route (0,0)-(0,2) with supplied total
length 1e9 m (far above the real segment length), no segment crosses the
half distance and the middle coordinate (index 1) is returned. -/
theorem c3_witness :
    getMidpoint (some ⟨⟨[(0, 0), (0, 2)]⟩, 0, 1e9⟩) = MidpointResult.coord 2 0 := by
  have hbound : haversineDistance (0, 0) (0, 2) ≤ (1e9 : ℝ) / 2 := by
    have h1 := haversine_meridian_lt
    nlinarith [Real.pi_lt_d2]
  have h := c3_middle_index_fallback ⟨⟨[(0, 0), (0, 2)]⟩, 0, 1e9⟩
    (by simp)
    (by
      intro i hi
      simp only at hi
      have hi0 : i = 0 := by
        simp at hi
        omega
      subst hi0
      have hseg : segDist [((0 : ℝ), (0 : ℝ)), ((0 : ℝ), (2 : ℝ))] 0 =
          haversineDistance (0, 0) (0, 2) := by simp [segDist]
      simpa [accDist, hseg] using hbound)
  rw [h]
  norm_num

/-- The x-argument of the latitude `atan2` in the midpoint formula is
invariant under swapping the two endpoints. -/
theorem midLat_arg_symm (A B d : ℝ) :
    (cos A + cos B * cos d) * (cos A + cos B * cos d) +
      (cos B * sin d) * (cos B * sin d) =
    (cos B + cos A * cos (-d)) * (cos B + cos A * cos (-d)) +
      (cos A * sin (-d)) * (cos A * sin (-d)) := by
  rw [Real.cos_neg, Real.sin_neg]
  linear_combination (Real.cos B ^ 2 - Real.cos A ^ 2) * Real.sin_sq_add_cos_sq d

/-- C8 counterexample: for the antimeridian-straddling pair
A = (0°, 170°), B = (0°, -170°), swapping the arguments of
`calculateMidpoint` changes the result: the midpoint longitude is computed
in different 2-pi branches (+180° versus -180°), so the returned
coordinates differ. -/
theorem c8_counterexample :
    calculateMidpoint ⟨0, 170⟩ ⟨0, -170⟩ ≠ calculateMidpoint ⟨0, -170⟩ ⟨0, 170⟩ := by
  have hsp : 0 < sin (π / 9) :=
    sin_pos_of_pos_of_lt_pi (by positivity) (div_lt_self pi_pos (by norm_num))
  have hcp : 0 < cos (π / 9) := by
    apply Real.cos_pos_of_mem_Ioo
    constructor
    · nlinarith [Real.pi_pos]
    · nlinarith [Real.pi_pos]
  have hxarg : (0 : ℝ) < 1 + cos (π / 9) := by linarith
  have e0 : toRadians (0 : ℝ) = 0 := by simp [toRadians]
  have e2 : sin (π / 9 - 2 * π) = sin (π / 9) := by
    rw [Real.sin_sub, Real.sin_two_pi, Real.cos_two_pi]
    ring
  have e3 : cos (π / 9 - 2 * π) = cos (π / 9) := by
    rw [Real.cos_sub, Real.sin_two_pi, Real.cos_two_pi]
    ring
  have h1 : 0 < (calculateMidpoint ⟨0, 170⟩ ⟨0, -170⟩).lng := by
    simp only [calculateMidpoint]
    rw [show toRadians (-170 : ℝ) - toRadians 170 = π / 9 - 2 * π by
      simp only [toRadians]; ring]
    rw [e0, Real.cos_zero, e2, e3, one_mul, one_mul]
    simp only [toDegrees]
    have hin : (0 : ℝ) < toRadians 170 + atan2 (sin (π / 9)) (1 + cos (π / 9)) := by
      have ha := atan2_pos_of_pos hsp hxarg
      have ht : (0 : ℝ) < toRadians 170 := by
        simp only [toRadians]
        positivity
      linarith
    exact div_pos (mul_pos hin (by norm_num)) pi_pos
  have h2 : (calculateMidpoint ⟨0, -170⟩ ⟨0, 170⟩).lng < 0 := by
    simp only [calculateMidpoint]
    rw [show toRadians (170 : ℝ) - toRadians (-170) = 2 * π - π / 9 by
      simp only [toRadians]; ring]
    rw [e0, Real.cos_zero, Real.sin_two_pi_sub, Real.cos_two_pi_sub, one_mul, one_mul]
    simp only [toDegrees]
    have hin : toRadians (-170) + atan2 (-sin (π / 9)) (1 + cos (π / 9)) < 0 := by
      have ha := atan2_neg_of_neg (neg_neg_of_pos hsp) hxarg
      have ht : toRadians (-170 : ℝ) < 0 := by
        simp only [toRadians]
        nlinarith [Real.pi_pos]
      linarith
    exact div_neg_of_neg_of_pos (mul_neg_of_neg_of_pos hin (by norm_num)) pi_pos
  intro h
  have hlng := congrArg Point.lng h
  rw [hlng] at h1
  linarith

/-- C8 amended: the geometric midpoint resolver is symmetric in its
latitude component — swapping A and B yields the same midpoint latitude —
but the longitude value it returns is not symmetric in general (the two
orders can land in 2-pi branches 360° apart, as the counterexample shows). -/
theorem c8_amended_latitude_symmetric (a b : Point) :
    (calculateMidpoint a b).lat = (calculateMidpoint b a).lat := by
  simp only [calculateMidpoint]
  rw [show toRadians a.lng - toRadians b.lng = -(toRadians b.lng - toRadians a.lng) by
    ring]
  rw [midLat_arg_symm (toRadians a.lat) (toRadians b.lat)
    (toRadians b.lng - toRadians a.lng)]
  rw [add_comm (sin (toRadians a.lat)) (sin (toRadians b.lat))]

end MMH
